import Mathlib

/-!
Shallow embedding of `src/backend/routers/announcements.py` (announcements
endpoints of the High School Management System API).

Modelling choices, each tied to a line of the source:

* An announcement document (the dict built at lines 78-84 and mutated only by
  `$set` at lines 113-116) has a fixed field set: `message` is always a
  string; `start_date` and `expiration_date` are `Option String`, where
  `none` stands for the key being absent or holding Python `None`, and
  `some ""` stands for the key holding the empty string (these are
  distinguishable through Python truthiness at lines 44 and 48).
* `announcements_collection` is a list of `(ObjectId, document)` pairs in
  insertion order; the Mongo-assigned `ObjectId` is modelled as a `Nat`
  drawn from a fresh counter, rendered externally by `natToHex24` (the
  `str(ObjectId)` 24-hex-character form) and parsed back by
  `ObjectId.parse` (the `ObjectId(s)` constructor, which accepts exactly
  24-character hex strings and raises `bson.errors.InvalidId` otherwise).
* `teachers_collection` is the membership registry; the only query made of
  it is `find_one({"_id": username})` (lines 73, 96, 132), modelled as list
  membership of the username.
* Each handler is a function from its inputs and the store state to a pair
  `(Except ApiError result, new store state)`.  `ApiError.http s d` is a
  deliberately raised `HTTPException(status_code=s, detail=d)`;
  `ApiError.invalidId` is the `bson.errors.InvalidId` exception escaping
  the handler uncaught (FastAPI turns that into a 500 internal server
  error, not a 4xx client error); `ApiError.typeErr` is the `TypeError`
  that `updated["_id"]` would raise if the re-fetch at line 122 found
  nothing (unreachable under sequential execution).
* Python string comparison on timestamps (lines 44, 48) is code-point
  lexicographic; it is embedded as `strLt`/`strLe`, structural lexicographic
  comparison of the code-point sequences.
-/

/-- An announcement document as stored in `announcements_collection`. -/
structure Announcement where
  message : String
  start_date : Option String
  expiration_date : Option String
  created_by : String
  created_at : String
deriving DecidableEq, Repr

/-- An announcement as returned to the caller: the document with its
`_id` rendered as a string (lines 52, 87, 123). -/
structure AnnouncementOut where
  id : String
  message : String
  start_date : Option String
  expiration_date : Option String
  created_by : String
  created_at : String
deriving DecidableEq, Repr

/-- `str(ObjectId)`: the 24-character lowercase hex rendering of a store key. -/
def natToHex24 (n : Nat) : String :=
  let ds := Nat.toDigits 16 n
  ⟨List.replicate (24 - ds.length) '0' ++ ds⟩

/-- Render a stored document for the caller, converting the ObjectId to its
string form (`announcement["_id"] = str(announcement["_id"])`). -/
def Announcement.withId (a : Announcement) (oid : Nat) : AnnouncementOut :=
  ⟨natToHex24 oid, a.message, a.start_date, a.expiration_date, a.created_by, a.created_at⟩

/-- The hex value of a character, if it is a hex digit (both cases). -/
def hexVal (c : Char) : Option Nat :=
  if c.isDigit then some (c.toNat - 48)
  else if 'a' ≤ c ∧ c ≤ 'f' then some (c.toNat - 87)
  else if 'A' ≤ c ∧ c ≤ 'F' then some (c.toNat - 55)
  else none

namespace ObjectId

/-- `ObjectId(s)`: succeeds exactly on 24-character hex strings, yielding the
store key; any other string raises `bson.errors.InvalidId` (modelled as
`none`). -/
def parse (s : String) : Option Nat :=
  if s.length = 24 then
    s.data.foldl (fun acc c => acc.bind fun n => (hexVal c).map fun v => 16 * n + v) (some 0)
  else none

end ObjectId

/-- State of `announcements_collection`: documents keyed by ObjectId in
insertion order, plus the counter from which Mongo-style fresh ids are
drawn on insert. -/
structure Store where
  announcements : List (Nat × Announcement)
  nextId : Nat
deriving DecidableEq, Repr

/-- `announcements_collection.insert_one(doc)`: appends under a fresh id and
returns the assigned id. -/
def insert_one (st : Store) (doc : Announcement) : Nat × Store :=
  (st.nextId, ⟨st.announcements ++ [(st.nextId, doc)], st.nextId + 1⟩)

/-- `collection.find_one({"_id": oid})`: the first document with that key. -/
def find_one (l : List (Nat × Announcement)) (oid : Nat) : Option Announcement :=
  (l.find? fun p => p.1 == oid).map Prod.snd

/-- The `update_data` dict built at lines 101-107: only the fields the
caller supplied. -/
structure Patch where
  message : Option String
  start_date : Option String
  expiration_date : Option String
deriving DecidableEq, Repr

/-- `if not update_data` (line 109): the dict is empty iff no field was
supplied. -/
def Patch.isEmpty (p : Patch) : Bool :=
  p.message == none && p.start_date == none && p.expiration_date == none

/-- Mongo `$set` with `update_data` (line 115): each key present in the
patch overwrites the corresponding field; keys absent from the patch are
untouched, and no key is ever removed. -/
def applyPatch (p : Patch) (a : Announcement) : Announcement :=
  ⟨match p.message with | some m => m | none => a.message,
   match p.start_date with | some s => some s | none => a.start_date,
   match p.expiration_date with | some e => some e | none => a.expiration_date,
   a.created_by, a.created_at⟩

/-- `collection.update_one({"_id": oid}, {"$set": patch})`: patches the first
matching document; returns `matched_count` and the new collection. -/
def update_one : List (Nat × Announcement) → Nat → Patch → Nat × List (Nat × Announcement)
  | [], _, _ => (0, [])
  | (i, a) :: rest, oid, p =>
    if i == oid then (1, (i, applyPatch p a) :: rest)
    else
      let r := update_one rest oid p
      (r.1, (i, a) :: r.2)

/-- `collection.delete_one({"_id": oid})`: removes the first matching
document; returns `deleted_count` and the new collection. -/
def delete_one : List (Nat × Announcement) → Nat → Nat × List (Nat × Announcement)
  | [], _ => (0, [])
  | (i, a) :: rest, oid =>
    if i == oid then (1, rest)
    else
      let r := delete_one rest oid
      (r.1, (i, a) :: r.2)

/-- Outcome of a handler call.  `http s d` is a raised
`HTTPException(status_code=s, detail=d)`; `invalidId` is an uncaught
`bson.errors.InvalidId` from the `ObjectId(announcement_id)` constructor
(surfaced by FastAPI as a 500 internal server error); `typeErr` is an
uncaught `TypeError` from subscripting `None`. -/
inductive ApiError where
  | http (status : Nat) (detail : String)
  | invalidId
  | typeErr
deriving DecidableEq, Repr

/-- An error the transport layer reports as a client (4xx) error: only a
deliberately raised `HTTPException` with a 4xx status qualifies; uncaught
exceptions become 500 internal server errors. -/
def ApiError.isClientError : ApiError → Bool
  | .http s _ => decide (400 ≤ s) && decide (s < 500)
  | _ => false

/-- Python `<` on strings: lexicographic comparison of the code-point
sequences. -/
def pyStrLt : List Char → List Char → Bool
  | [], [] => false
  | [], _ :: _ => true
  | _ :: _, [] => false
  | c :: cs, d :: ds =>
    if c.toNat < d.toNat then true
    else if d.toNat < c.toNat then false
    else pyStrLt cs ds

/-- Python `<=` on strings: lexicographic comparison of the code-point
sequences, equal strings included. -/
def pyStrLe : List Char → List Char → Bool
  | [], _ => true
  | _ :: _, [] => false
  | c :: cs, d :: ds =>
    if c.toNat < d.toNat then true
    else if d.toNat < c.toNat then false
    else pyStrLe cs ds

/-- Python `a < b` for strings `a`, `b`. -/
def strLt (a b : String) : Bool := pyStrLt a.data b.data

/-- Python `a <= b` for strings `a`, `b`. -/
def strLe (a b : String) : Bool := pyStrLe a.data b.data

/-- Line 44: `announcement.get("expiration_date") and
announcement["expiration_date"] < now` — the record is skipped as expired.
Python truthiness makes an absent key, `None`, and `""` all falsy. -/
def expiredBefore (now : String) (a : Announcement) : Bool :=
  match a.expiration_date with
  | none => false
  | some e => e != "" && strLt e now

/-- Line 48: `announcement.get("start_date") and
announcement["start_date"] > now` — the record is skipped as not started. -/
def notStarted (now : String) (a : Announcement) : Bool :=
  match a.start_date with
  | none => false
  | some s => s != "" && strLt now s

/-- `GET /announcements/active` (lines 33-55): walk the collection, skip
expired and not-yet-started records, render the rest. -/
def get_active_announcements (st : Store) (now : String) : List AnnouncementOut :=
  st.announcements.filterMap fun p =>
    if expiredBefore now p.2 then none
    else if notStarted now p.2 then none
    else some (p.2.withId p.1)

/-- `GET /announcements/all` (lines 58-66). -/
def get_all_announcements (st : Store) : List AnnouncementOut :=
  st.announcements.map fun p => p.2.withId p.1

/-- `POST /announcements/` (lines 69-89).  `now` is the server clock read
`datetime.now().isoformat()` at line 83, passed explicitly. -/
def create_announcement (teachers : List String) (st : Store) (now : String)
    (message : String) (start_date : Option String) (expiration_date : String)
    (username : String) : Except ApiError AnnouncementOut × Store :=
  if teachers.contains username then
    let new_announcement : Announcement :=
      ⟨message, start_date, some expiration_date, username, now⟩
    let r := insert_one st new_announcement
    (.ok (new_announcement.withId r.1), r.2)
  else (.error (.http 401 "Unauthorized"), st)

/-- `PUT /announcements/{announcement_id}` (lines 92-125). -/
def update_announcement (teachers : List String) (st : Store)
    (announcement_id : String) (message start_date expiration_date : Option String)
    (username : String) : Except ApiError AnnouncementOut × Store :=
  if teachers.contains username then
    let update_data : Patch := ⟨message, start_date, expiration_date⟩
    if update_data.isEmpty then (.error (.http 400 "No fields to update"), st)
    else
      match ObjectId.parse announcement_id with
      | none => (.error .invalidId, st)
      | some oid =>
        let r := update_one st.announcements oid update_data
        let st' : Store := ⟨r.2, st.nextId⟩
        if r.1 == 0 then (.error (.http 404 "Announcement not found"), st')
        else
          match find_one r.2 oid with
          | some updated => (.ok (updated.withId oid), st')
          | none => (.error .typeErr, st')
  else (.error (.http 401 "Unauthorized"), st)

/-- `DELETE /announcements/{announcement_id}` (lines 128-142).  On success
the handler returns `{"message": "Announcement deleted successfully"}`,
modelled as that message string. -/
def delete_announcement (teachers : List String) (st : Store)
    (announcement_id : String) (username : String) : Except ApiError String × Store :=
  if teachers.contains username then
    match ObjectId.parse announcement_id with
    | none => (.error .invalidId, st)
    | some oid =>
      let r := delete_one st.announcements oid
      let st' : Store := ⟨r.2, st.nextId⟩
      if r.1 == 0 then (.error (.http 404 "Announcement not found"), st')
      else (.ok "Announcement deleted successfully", st')
  else (.error (.http 401 "Unauthorized"), st)

/-! ## Spec-side predicates -/

/-- The active-window predicate exactly as the spec words it: include a
record iff (`expiration_date` is absent, OR `expiration_date >= now`) AND
(`start_date` is absent, OR `start_date <= now`), under string comparison.
Used to compare the spec's claim against the code's filter. -/
def specActive (now : String) (a : Announcement) : Bool :=
  (match a.expiration_date with
   | none => true
   | some e => strLe now e) &&
  (match a.start_date with
   | none => true
   | some s => strLe s now)

/-- The expiration half of the window predicate as the code computes it:
`expiration_date` absent or empty, or `expiration_date >= now`. -/
def notExpiredAmended (now : String) (a : Announcement) : Bool :=
  match a.expiration_date with
  | none => true
  | some e => e == "" || strLe now e

/-- The start half of the window predicate as the code computes it:
`start_date` absent or empty, or `start_date <= now`. -/
def startedAmended (now : String) (a : Announcement) : Bool :=
  match a.start_date with
  | none => true
  | some s => s == "" || strLe s now

/-- The active-window predicate the code actually computes: as `specActive`,
except that an empty-string timestamp counts as absent (Python truthiness
at lines 44 and 48). -/
def activeAmended (now : String) (a : Announcement) : Bool :=
  notExpiredAmended now a && startedAmended now a

/-! ## Concrete instances used by witnesses and counterexamples -/

/-- A sample announcement: created by `t1`, no start date, expiring
2025-01-10. -/
def recA : Announcement :=
  ⟨"Exam Friday", none, some "2025-01-10T00:00:00", "t1", "2025-01-01T00:00:00"⟩

/-- A sample record whose `expiration_date` holds the empty string. -/
def recEmptyExp : Announcement :=
  ⟨"m", none, some "", "t1", "2024-01-01T00:00:00"⟩

/-- A one-record store holding `recA` under key 0. -/
def storeA : Store := ⟨[(0, recA)], 1⟩

/-- The 24-zero identifier string; it parses to store key 0. -/
def oid0 : String := "000000000000000000000000"

/-! ## Helper lemmas -/

theorem pyStrLt_not (a b : List Char) : (!pyStrLt a b) = pyStrLe b a := by
  induction a generalizing b with
  | nil => cases b <;> rfl
  | cons c cs ih =>
    cases b with
    | nil => rfl
    | cons d ds =>
      show (!(if c.toNat < d.toNat then true
              else if d.toNat < c.toNat then false
              else pyStrLt cs ds))
          = (if d.toNat < c.toNat then true
             else if c.toNat < d.toNat then false
             else pyStrLe ds cs)
      by_cases h1 : c.toNat < d.toNat
      · rw [if_pos h1, if_neg (by omega), if_pos h1]; rfl
      · by_cases h2 : d.toNat < c.toNat
        · rw [if_neg h1, if_pos h2, if_pos h2]; rfl
        · rw [if_neg h1, if_neg h2, if_neg h2, if_neg h1]; exact ih ds

theorem strLt_not (a b : String) : (!strLt a b) = strLe b a :=
  pyStrLt_not a.data b.data

theorem notExpiredAmended_eq (now : String) (a : Announcement) :
    notExpiredAmended now a = !expiredBefore now a := by
  rcases a with ⟨m, sd, ed, cb, ca⟩
  rcases ed with _ | e
  · rfl
  · show (e == "" || strLe now e) = !(e != "" && strLt e now)
    by_cases he : e = ""
    · subst he; rfl
    · have h0 : (e == "") = false := by simpa using he
      have h1 : (e != "") = true := by simp [bne, h0]
      rw [h0, h1, Bool.true_and, Bool.false_or]
      exact (strLt_not e now).symm

theorem startedAmended_eq (now : String) (a : Announcement) :
    startedAmended now a = !notStarted now a := by
  rcases a with ⟨m, sd, ed, cb, ca⟩
  rcases sd with _ | s
  · rfl
  · show (s == "" || strLe s now) = !(s != "" && strLt now s)
    by_cases hs : s = ""
    · subst hs; rfl
    · have h0 : (s == "") = false := by simpa using hs
      have h1 : (s != "") = true := by simp [bne, h0]
      rw [h0, h1, Bool.true_and, Bool.false_or]
      exact (strLt_not now s).symm

theorem get_active_eq_filter (st : Store) (now : String) :
    get_active_announcements st now
      = (st.announcements.filter fun p => activeAmended now p.2).map
          fun p => p.2.withId p.1 := by
  show List.filterMap _ st.announcements = _
  induction st.announcements with
  | nil => rfl
  | cons hd tl ih =>
    rw [List.filterMap_cons, List.filter_cons]
    have hact : activeAmended now hd.2 = (!expiredBefore now hd.2 && !notStarted now hd.2) := by
      rw [activeAmended, notExpiredAmended_eq, startedAmended_eq]
    by_cases h1 : expiredBefore now hd.2
    · rw [if_pos h1, ih]
      have : activeAmended now hd.2 = false := by rw [hact, h1]; rfl
      simp [this]
    · by_cases h2 : notStarted now hd.2
      · rw [if_neg h1, if_pos h2, ih]
        have hb1 : expiredBefore now hd.2 = false := by simpa using h1
        have : activeAmended now hd.2 = false := by rw [hact, hb1, h2]; rfl
        simp [this]
      · rw [if_neg h1, if_neg h2, ih]
        have hb1 : expiredBefore now hd.2 = false := by simpa using h1
        have hb2 : notStarted now hd.2 = false := by simpa using h2
        have : activeAmended now hd.2 = true := by rw [hact, hb1, hb2]; rfl
        simp [this]

theorem update_one_of_find?_none {l : List (Nat × Announcement)} {oid : Nat}
    (p : Patch) (h : l.find? (fun q => q.1 == oid) = none) :
    update_one l oid p = (0, l) := by
  induction l with
  | nil => rfl
  | cons hd tl ih =>
    obtain ⟨i, b⟩ := hd
    by_cases hi : (i == oid) = true
    · rw [List.find?_cons_of_pos _ (by simpa using hi)] at h
      exact absurd h (by simp)
    · rw [List.find?_cons_of_neg _ (by simpa using hi)] at h
      show (if (i == oid) = true then _ else _) = _
      rw [if_neg hi, ih h]

theorem update_one_of_find?_some {l : List (Nat × Announcement)} {oid : Nat}
    {a : Announcement} (p : Patch)
    (h : l.find? (fun q => q.1 == oid) = some (oid, a)) :
    (update_one l oid p).1 = 1 ∧
      (update_one l oid p).2.find? (fun q => q.1 == oid)
        = some (oid, applyPatch p a) := by
  induction l with
  | nil => simp at h
  | cons hd tl ih =>
    obtain ⟨i, b⟩ := hd
    by_cases hi : (i == oid) = true
    · rw [List.find?_cons_of_pos _ (by simpa using hi)] at h
      have hia : i = oid ∧ b = a := by
        have := h
        simp at this
        exact ⟨this.1, this.2⟩
      have hup : update_one ((i, b) :: tl) oid p
          = (1, (i, applyPatch p b) :: tl) := by
        show (if (i == oid) = true then _ else _) = _
        rw [if_pos hi]
      rw [hup]
      refine ⟨rfl, ?_⟩
      rw [List.find?_cons_of_pos _ (by simpa using hi), hia.1, hia.2]
    · rw [List.find?_cons_of_neg _ (by simpa using hi)] at h
      obtain ⟨ih1, ih2⟩ := ih h
      have hup : update_one ((i, b) :: tl) oid p
          = ((update_one tl oid p).1, (i, b) :: (update_one tl oid p).2) := by
        show (if (i == oid) = true then _ else _) = _
        rw [if_neg hi]
      rw [hup]
      refine ⟨ih1, ?_⟩
      rw [List.find?_cons_of_neg _ (by simpa using hi)]
      exact ih2

theorem delete_one_of_countP_zero {l : List (Nat × Announcement)} {oid : Nat}
    (h : l.countP (fun q => q.1 == oid) = 0) :
    delete_one l oid = (0, l) := by
  induction l with
  | nil => rfl
  | cons hd tl ih =>
    obtain ⟨i, b⟩ := hd
    by_cases hi : (i == oid) = true
    · rw [List.countP_cons_of_pos _ _ (by simpa using hi)] at h
      exact absurd h (by omega)
    · rw [List.countP_cons_of_neg _ _ (by simpa using hi)] at h
      show (if (i == oid) = true then _ else _) = _
      rw [if_neg hi, ih h]

theorem delete_one_of_countP_one {l : List (Nat × Announcement)} {oid : Nat}
    (h : l.countP (fun q => q.1 == oid) = 1) :
    (delete_one l oid).1 = 1 ∧
      (delete_one l oid).2.countP (fun q => q.1 == oid) = 0 := by
  induction l with
  | nil => simp at h
  | cons hd tl ih =>
    obtain ⟨i, b⟩ := hd
    by_cases hi : (i == oid) = true
    · rw [List.countP_cons_of_pos _ _ (by simpa using hi)] at h
      have htl : tl.countP (fun q => q.1 == oid) = 0 := by omega
      have hdel : delete_one ((i, b) :: tl) oid = (1, tl) := by
        show (if (i == oid) = true then _ else _) = _
        rw [if_pos hi]
      rw [hdel]
      exact ⟨rfl, htl⟩
    · rw [List.countP_cons_of_neg _ _ (by simpa using hi)] at h
      obtain ⟨ih1, ih2⟩ := ih h
      have hdel : delete_one ((i, b) :: tl) oid
          = ((delete_one tl oid).1, (i, b) :: (delete_one tl oid).2) := by
        show (if (i == oid) = true then _ else _) = _
        rw [if_neg hi]
      rw [hdel]
      refine ⟨ih1, ?_⟩
      rw [List.countP_cons_of_neg _ _ (by simpa using hi)]
      exact ih2

/-! ## Claims -/

/-- C1, counterexample: the claim says list-active returns exactly the
records satisfying (expiration_date absent OR expiration_date >= now) AND
(start_date absent OR start_date <= now).  A record whose
`expiration_date` is present but equal to the empty string fails that
predicate at now = 2025-01-01 (the empty string is not >= now), yet the
code returns it, because the truthiness test at line 44 skips the
comparison for empty strings. -/
theorem C1_counterexample :
    specActive "2025-01-01T00:00:00" recEmptyExp = false ∧
    get_active_announcements ⟨[(0, recEmptyExp)], 1⟩ "2025-01-01T00:00:00"
      = [recEmptyExp.withId 0] := by
  constructor
  · rfl
  · rfl

/-- C1, amended: for every store state and timestamp now, list-active
returns exactly those records satisfying (expiration_date absent or empty
OR expiration_date >= now) AND (start_date absent or empty OR
start_date <= now), under string comparison, in store order, each rendered
with its identifier as a string; both bounds are inclusive. -/
theorem C1_active_exactly_window (st : Store) (now : String) :
    get_active_announcements st now
      = (st.announcements.filter fun p => activeAmended now p.2).map
          fun p => p.2.withId p.1 :=
  get_active_eq_filter st now

/-- C9: the active-window filter treats an empty-string timestamp the same
as an absent one: for every now, a record whose expiration_date is the
empty string is never excluded by the expiration check, and a record whose
start_date is the empty string is never excluded by the start check. -/
theorem C9_empty_string_like_absent (now : String) (a : Announcement) :
    (a.expiration_date = some "" → expiredBefore now a = false) ∧
    (a.start_date = some "" → notStarted now a = false) := by
  constructor
  · intro h
    simp [expiredBefore, h]
  · intro h
    simp [notStarted, h]

/-- C9 witness: the empty-string checks evaluated on a concrete record. -/
theorem C9_empty_string_like_absent_witness :
    expiredBefore "2025-01-01T00:00:00"
        (⟨"m", some "", some "", "t1", "t0"⟩ : Announcement) = false ∧
    notStarted "2025-01-01T00:00:00"
        (⟨"m", some "", some "", "t1", "t0"⟩ : Announcement) = false :=
  ⟨(C9_empty_string_like_absent "2025-01-01T00:00:00" ⟨"m", some "", some "", "t1", "t0"⟩).1 rfl,
   (C9_empty_string_like_absent "2025-01-01T00:00:00" ⟨"m", some "", some "", "t1", "t0"⟩).2 rfl⟩

/-- C2: when the author's username is not in the membership registry,
create fails with Unauthorized (HTTP 401) and the record store is returned
completely unchanged: no record is inserted. -/
theorem C2_create_unauthorized (teachers : List String) (st : Store)
    (now message : String) (start_date : Option String)
    (expiration_date username : String)
    (h : teachers.contains username = false) :
    create_announcement teachers st now message start_date expiration_date username
      = (.error (.http 401 "Unauthorized"), st) := by
  unfold create_announcement
  have hn : ¬ (teachers.contains username = true) := by
    rw [h]; exact Bool.false_ne_true
  rw [if_neg hn]

/-- C2 witness: a concrete unregistered author. -/
theorem C2_create_unauthorized_witness :
    (["t1"].contains "t2" = false) ∧
    create_announcement ["t1"] storeA "2025-01-02T00:00:00" "m" none
        "2025-01-10T00:00:00" "t2"
      = (.error (.http 401 "Unauthorized"), storeA) :=
  ⟨by decide,
   C2_create_unauthorized ["t1"] storeA "2025-01-02T00:00:00" "m" none
     "2025-01-10T00:00:00" "t2" (by decide)⟩

/-- C3: an update by a registered author that supplies none of message,
start_date, expiration_date fails with BadRequest (HTTP 400) and the store
— every record in it, including any targeted one — is returned unchanged. -/
theorem C3_update_empty_patch (teachers : List String) (st : Store)
    (announcement_id username : String)
    (h : teachers.contains username = true) :
    update_announcement teachers st announcement_id none none none username
      = (.error (.http 400 "No fields to update"), st) := by
  unfold update_announcement
  rw [if_pos h]
  rfl

/-- C3 witness: a concrete registered author and empty patch. -/
theorem C3_update_empty_patch_witness :
    (["t1"].contains "t1" = true) ∧
    update_announcement ["t1"] storeA oid0 none none none "t1"
      = (.error (.http 400 "No fields to update"), storeA) :=
  ⟨by decide, C3_update_empty_patch ["t1"] storeA oid0 "t1" (by decide)⟩

theorem applyPatch_frame (p : Patch) (a : Announcement) :
    (applyPatch p a).created_by = a.created_by ∧
    (applyPatch p a).created_at = a.created_at ∧
    (p.message = none → (applyPatch p a).message = a.message) ∧
    (p.start_date = none → (applyPatch p a).start_date = a.start_date) ∧
    (p.expiration_date = none → (applyPatch p a).expiration_date = a.expiration_date) ∧
    (a.start_date.isSome = true → (applyPatch p a).start_date.isSome = true) ∧
    (a.expiration_date.isSome = true → (applyPatch p a).expiration_date.isSome = true) := by
  obtain ⟨pm, ps, pe⟩ := p
  refine ⟨rfl, rfl, ?_, ?_, ?_, ?_, ?_⟩ <;>
    rcases pm with _ | m <;> rcases ps with _ | s <;> rcases pe with _ | e <;>
    simp [applyPatch]

/-- C4: an update by a registered author with a non-empty patch and a
well-formed identifier: if a record matches the identifier, the handler
returns the record with exactly the supplied fields replaced, and the
store afterwards holds that patched record under the same identifier; if
no record matches, it fails with NotFound (HTTP 404) and the store is
unchanged. -/
theorem C4_update_patch_or_notfound (teachers : List String) (st : Store)
    (announcement_id : String) (message start_date expiration_date : Option String)
    (username : String) (oid : Nat)
    (hu : teachers.contains username = true)
    (hne : Patch.isEmpty ⟨message, start_date, expiration_date⟩ = false)
    (hid : ObjectId.parse announcement_id = some oid) :
    (∀ a, st.announcements.find? (fun q => q.1 == oid) = some (oid, a) →
        (update_announcement teachers st announcement_id message start_date
            expiration_date username).1
          = .ok ((applyPatch ⟨message, start_date, expiration_date⟩ a).withId oid) ∧
        (update_announcement teachers st announcement_id message start_date
            expiration_date username).2.announcements.find? (fun q => q.1 == oid)
          = some (oid, applyPatch ⟨message, start_date, expiration_date⟩ a)) ∧
    (st.announcements.find? (fun q => q.1 == oid) = none →
        update_announcement teachers st announcement_id message start_date
            expiration_date username
          = (.error (.http 404 "Announcement not found"), st)) := by
  have hm : username ∈ teachers := by simpa using hu
  constructor
  · intro a ha
    obtain ⟨h1, h2⟩ :=
      update_one_of_find?_some (⟨message, start_date, expiration_date⟩ : Patch) ha
    have hfo : find_one
        (update_one st.announcements oid ⟨message, start_date, expiration_date⟩).2 oid
        = some (applyPatch ⟨message, start_date, expiration_date⟩ a) := by
      rw [find_one, h2]; rfl
    constructor
    · simp [update_announcement, hm, hne, hid, h1, hfo]
    · simp [update_announcement, hm, hne, hid, h1, hfo, h2]
  · intro hnone
    have h0 := update_one_of_find?_none (⟨message, start_date, expiration_date⟩ : Patch) hnone
    simp [update_announcement, hm, hne, hid, h0]

/-- C4 witness: patching the message of the stored record. -/
theorem C4_update_patch_or_notfound_witness :
    ["t1"].contains "t1" = true ∧
    Patch.isEmpty ⟨some "new", none, none⟩ = false ∧
    ObjectId.parse oid0 = some 0 ∧
    (update_announcement ["t1"] storeA oid0 (some "new") none none "t1").1
      = .ok ((applyPatch ⟨some "new", none, none⟩ recA).withId 0) :=
  ⟨by decide, by decide, by rfl,
   ((C4_update_patch_or_notfound ["t1"] storeA oid0 (some "new") none none "t1" 0
       (by decide) (by decide) (by rfl)).1 recA (by rfl)).1⟩

/-- C5: whenever an update succeeds, the record stored under the targeted
identifier afterwards has the same created_by and created_at as before,
every field not supplied in the request keeps its old value, and no field
that was present beforehand is absent afterwards (absence in the request
means leave unchanged, never clear). -/
theorem C5_update_frame (teachers : List String) (st : Store)
    (announcement_id : String) (message start_date expiration_date : Option String)
    (username : String) (oid : Nat) (a : Announcement)
    (out : AnnouncementOut) (st' : Store)
    (hid : ObjectId.parse announcement_id = some oid)
    (hfind : st.announcements.find? (fun q => q.1 == oid) = some (oid, a))
    (hok : update_announcement teachers st announcement_id message start_date
        expiration_date username = (.ok out, st')) :
    ∃ a', st'.announcements.find? (fun q => q.1 == oid) = some (oid, a') ∧
      a'.created_by = a.created_by ∧
      a'.created_at = a.created_at ∧
      (message = none → a'.message = a.message) ∧
      (start_date = none → a'.start_date = a.start_date) ∧
      (expiration_date = none → a'.expiration_date = a.expiration_date) ∧
      (a.start_date.isSome = true → a'.start_date.isSome = true) ∧
      (a.expiration_date.isSome = true → a'.expiration_date.isSome = true) := by
  cases hcu : teachers.contains username with
  | false =>
    rw [update_announcement, if_neg (by rw [hcu]; exact Bool.false_ne_true)] at hok
    exact absurd hok (by simp)
  | true =>
    have hm : username ∈ teachers := by simpa using hcu
    cases hemp : Patch.isEmpty ⟨message, start_date, expiration_date⟩ with
    | true =>
      simp [update_announcement, hm, hemp] at hok
    | false =>
      obtain ⟨h1, h2⟩ :=
        update_one_of_find?_some (⟨message, start_date, expiration_date⟩ : Patch) hfind
      have hfo : find_one
          (update_one st.announcements oid ⟨message, start_date, expiration_date⟩).2 oid
          = some (applyPatch ⟨message, start_date, expiration_date⟩ a) := by
        rw [find_one, h2]; rfl
      simp [update_announcement, hm, hemp, hid, h1, hfo] at hok
      obtain ⟨hfr1, hfr2, hfr3, hfr4, hfr5, hfr6, hfr7⟩ :=
        applyPatch_frame (⟨message, start_date, expiration_date⟩ : Patch) a
      refine ⟨applyPatch ⟨message, start_date, expiration_date⟩ a, ?_,
        hfr1, hfr2, fun h => hfr3 h, fun h => hfr4 h, fun h => hfr5 h, hfr6, hfr7⟩
      rw [← hok.2]
      exact h2

/-- C5 witness: a concrete successful update of only the message field. -/
theorem C5_update_frame_witness :
    ObjectId.parse oid0 = some 0 ∧
    storeA.announcements.find? (fun q => q.1 == 0) = some (0, recA) ∧
    update_announcement ["t1"] storeA oid0 (some "new") none none "t1"
      = (.ok ((applyPatch ⟨some "new", none, none⟩ recA).withId 0),
         ⟨[(0, applyPatch ⟨some "new", none, none⟩ recA)], 1⟩) ∧
    (∃ a', (⟨[(0, applyPatch ⟨some "new", none, none⟩ recA)], 1⟩ : Store).announcements.find?
          (fun q => q.1 == 0) = some (0, a') ∧
      a'.created_by = recA.created_by ∧
      a'.created_at = recA.created_at ∧
      ((some "new" : Option String) = none → a'.message = recA.message) ∧
      ((none : Option String) = none → a'.start_date = recA.start_date) ∧
      ((none : Option String) = none → a'.expiration_date = recA.expiration_date) ∧
      (recA.start_date.isSome = true → a'.start_date.isSome = true) ∧
      (recA.expiration_date.isSome = true → a'.expiration_date.isSome = true)) :=
  ⟨by rfl, by rfl, by rfl,
   C5_update_frame ["t1"] storeA oid0 (some "new") none none "t1" 0 recA
     ((applyPatch ⟨some "new", none, none⟩ recA).withId 0)
     ⟨[(0, applyPatch ⟨some "new", none, none⟩ recA)], 1⟩
     (by rfl) (by rfl) (by rfl)⟩

/-- C6: for a registered author and a well-formed identifier, if exactly
one record matches the identifier, the first delete succeeds with the
confirmation message and an immediately repeated delete of the same
identifier fails with NotFound (HTTP 404), leaving the store as the first
delete left it; and if no record matches, delete fails with NotFound and
the store is unchanged. -/
theorem C6_delete_twice (teachers : List String) (st : Store)
    (announcement_id username : String) (oid : Nat)
    (hu : teachers.contains username = true)
    (hid : ObjectId.parse announcement_id = some oid) :
    ((st.announcements.countP fun q => q.1 == oid) = 1 →
        (delete_announcement teachers st announcement_id username).1
          = .ok "Announcement deleted successfully" ∧
        delete_announcement teachers
            (delete_announcement teachers st announcement_id username).2
            announcement_id username
          = (.error (.http 404 "Announcement not found"),
             (delete_announcement teachers st announcement_id username).2)) ∧
    ((st.announcements.countP fun q => q.1 == oid) = 0 →
        delete_announcement teachers st announcement_id username
          = (.error (.http 404 "Announcement not found"), st)) := by
  have hm : username ∈ teachers := by simpa using hu
  constructor
  · intro h1
    obtain ⟨hd1, hd2⟩ := delete_one_of_countP_one h1
    have hfirst : delete_announcement teachers st announcement_id username
        = (.ok "Announcement deleted successfully",
           ⟨(delete_one st.announcements oid).2, st.nextId⟩) := by
      simp [delete_announcement, hm, hid, hd1]
    have hzero := delete_one_of_countP_zero hd2
    refine ⟨by rw [hfirst], ?_⟩
    rw [hfirst]
    simp [delete_announcement, hm, hid, hzero]
  · intro h0
    have hzero := delete_one_of_countP_zero h0
    simp [delete_announcement, hm, hid, hzero]

/-- C6 witness: deleting the only record twice in the sample store. -/
theorem C6_delete_twice_witness :
    ["t1"].contains "t1" = true ∧
    ObjectId.parse oid0 = some 0 ∧
    (storeA.announcements.countP fun q => q.1 == 0) = 1 ∧
    (delete_announcement ["t1"] storeA oid0 "t1").1
      = .ok "Announcement deleted successfully" ∧
    delete_announcement ["t1"] (delete_announcement ["t1"] storeA oid0 "t1").2 oid0 "t1"
      = (.error (.http 404 "Announcement not found"),
         (delete_announcement ["t1"] storeA oid0 "t1").2) :=
  ⟨by decide, by rfl, by rfl,
   (C6_delete_twice ["t1"] storeA oid0 "t1" 0 (by decide) (by rfl)).1 (by rfl)⟩

/-- C7, counterexample: the claim says an unparseable identifier is
surfaced as a client error.  With the author registered and a non-empty
patch, an identifier that is not a 24-character hex string makes both
update and delete raise `bson.errors.InvalidId` out of the handler — an
uncaught exception becoming a 500 internal server error, not a 4xx client
error. -/
theorem C7_counterexample :
    (update_announcement ["t1"] storeA "not-a-valid-objectid" (some "m") none none "t1").1
      = .error .invalidId ∧
    (delete_announcement ["t1"] storeA "not-a-valid-objectid" "t1").1
      = .error .invalidId ∧
    ApiError.invalidId.isClientError = false := by
  refine ⟨rfl, rfl, rfl⟩

/-- C7, amended: for every update request with a non-empty patch and every
delete request by a registered author whose identifier cannot be parsed
into the store's key form, the operation fails with the uncaught
identifier-parse error (surfaced as an internal server error, not a
classified client error), and the store is unchanged. -/
theorem C7_malformed_identifier (teachers : List String) (st : Store)
    (announcement_id : String) (message start_date expiration_date : Option String)
    (username : String)
    (hu : teachers.contains username = true)
    (hbad : ObjectId.parse announcement_id = none)
    (hne : Patch.isEmpty ⟨message, start_date, expiration_date⟩ = false) :
    update_announcement teachers st announcement_id message start_date
        expiration_date username
      = (.error .invalidId, st) ∧
    delete_announcement teachers st announcement_id username
      = (.error .invalidId, st) ∧
    ApiError.invalidId.isClientError = false := by
  have hm : username ∈ teachers := by simpa using hu
  refine ⟨?_, ?_, rfl⟩
  · simp [update_announcement, hm, hne, hbad]
  · simp [delete_announcement, hm, hbad]

/-- C7 witness: a concrete malformed identifier. -/
theorem C7_malformed_identifier_witness :
    ["t1"].contains "t1" = true ∧
    ObjectId.parse "xyz" = none ∧
    Patch.isEmpty ⟨some "m", none, none⟩ = false ∧
    update_announcement ["t1"] storeA "xyz" (some "m") none none "t1"
      = (.error .invalidId, storeA) ∧
    delete_announcement ["t1"] storeA "xyz" "t1" = (.error .invalidId, storeA) ∧
    ApiError.invalidId.isClientError = false :=
  ⟨by decide, by rfl, by decide,
   C7_malformed_identifier ["t1"] storeA "xyz" (some "m") none none "t1"
     (by decide) (by rfl) (by decide)⟩

/-- C8: for every registered author, creating the scenario announcement
(message "Exam Friday", no start date, expiration 2025-01-10T00:00:00)
succeeds, returns the persisted record with created_by equal to the author
and the newly assigned identifier, and that record is exactly what
list-active at now 2025-01-05T00:00:00 adds to its result, while
list-active at now 2025-01-11T00:00:00 is unchanged by it (the created
record is excluded). -/
theorem C8_create_then_list_active (teachers : List String) (st : Store)
    (username createdAt : String)
    (hu : teachers.contains username = true) :
    ∃ out st',
      create_announcement teachers st createdAt "Exam Friday" none
          "2025-01-10T00:00:00" username = (.ok out, st') ∧
      out.created_by = username ∧
      out.id = natToHex24 st.nextId ∧
      get_active_announcements st' "2025-01-05T00:00:00"
        = get_active_announcements st "2025-01-05T00:00:00" ++ [out] ∧
      get_active_announcements st' "2025-01-11T00:00:00"
        = get_active_announcements st "2025-01-11T00:00:00" := by
  have hm : username ∈ teachers := by simpa using hu
  refine ⟨(⟨"Exam Friday", none, some "2025-01-10T00:00:00", username, createdAt⟩
      : Announcement).withId st.nextId,
    ⟨st.announcements
      ++ [(st.nextId, ⟨"Exam Friday", none, some "2025-01-10T00:00:00", username, createdAt⟩)],
     st.nextId + 1⟩, ?_, rfl, rfl, ?_, ?_⟩
  · simp [create_announcement, hm, insert_one]
  · have h1 : expiredBefore "2025-01-05T00:00:00"
        (⟨"Exam Friday", none, some "2025-01-10T00:00:00", username, createdAt⟩
          : Announcement) = false := rfl
    have h2 : notStarted "2025-01-05T00:00:00"
        (⟨"Exam Friday", none, some "2025-01-10T00:00:00", username, createdAt⟩
          : Announcement) = false := rfl
    simp [get_active_announcements, List.filterMap_append, h1, h2]
  · have h1 : expiredBefore "2025-01-11T00:00:00"
        (⟨"Exam Friday", none, some "2025-01-10T00:00:00", username, createdAt⟩
          : Announcement) = true := rfl
    simp [get_active_announcements, List.filterMap_append, h1]

/-- C8 witness: the scenario run from the empty store with author t1. -/
theorem C8_create_then_list_active_witness :
    ["t1"].contains "t1" = true ∧
    (∃ out st',
      create_announcement ["t1"] ⟨[], 0⟩ "2025-01-02T00:00:00" "Exam Friday" none
          "2025-01-10T00:00:00" "t1" = (.ok out, st') ∧
      out.created_by = "t1" ∧
      out.id = natToHex24 0 ∧
      get_active_announcements st' "2025-01-05T00:00:00"
        = get_active_announcements ⟨[], 0⟩ "2025-01-05T00:00:00" ++ [out] ∧
      get_active_announcements st' "2025-01-11T00:00:00"
        = get_active_announcements ⟨[], 0⟩ "2025-01-11T00:00:00") :=
  ⟨by decide,
   C8_create_then_list_active ["t1"] ⟨[], 0⟩ "t1" "2025-01-02T00:00:00" (by decide)⟩

/-- C10: neither update nor delete compares the requesting author against
the record's created_by: for any record in the store and any registered
member m different from its creator (the creator also being registered),
an update or delete issued by m returns exactly the same outcome and the
same store as the identical request issued by the creator. -/
theorem C10_no_ownership_check (teachers : List String) (st : Store)
    (announcement_id : String) (message start_date expiration_date : Option String)
    (m : String) (oid : Nat) (a : Announcement)
    (hrec : st.announcements.find? (fun q => q.1 == oid) = some (oid, a))
    (hm : teachers.contains m = true)
    (hcreator : teachers.contains a.created_by = true)
    (hne : m ≠ a.created_by) :
    update_announcement teachers st announcement_id message start_date
        expiration_date m
      = update_announcement teachers st announcement_id message start_date
          expiration_date a.created_by ∧
    delete_announcement teachers st announcement_id m
      = delete_announcement teachers st announcement_id a.created_by := by
  constructor
  · unfold update_announcement
    rw [if_pos hm, if_pos hcreator]
  · unfold delete_announcement
    rw [if_pos hm, if_pos hcreator]

/-- C10 witness: t2 operates on t1's record with the same outcome. -/
theorem C10_no_ownership_check_witness :
    (["t1", "t2"].contains "t2" = true) ∧
    (["t1", "t2"].contains recA.created_by = true) ∧
    ("t2" ≠ recA.created_by) ∧
    update_announcement ["t1", "t2"] storeA oid0 (some "new") none none "t2"
      = update_announcement ["t1", "t2"] storeA oid0 (some "new") none none recA.created_by ∧
    delete_announcement ["t1", "t2"] storeA oid0 "t2"
      = delete_announcement ["t1", "t2"] storeA oid0 recA.created_by :=
  ⟨by decide, by decide, by decide,
   C10_no_ownership_check ["t1", "t2"] storeA oid0 (some "new") none none "t2" 0 recA
     (by rfl) (by decide) (by decide) (by decide)⟩
